import Mathlib

/-!
Verification of the bright_events_node events resource and configuration
loader against its specification.

The development shallowly embeds the TypeScript sources:
  * `src/domains/events/events.types.ts` — the events data model, the
    query-filter composer (`getQueryBuilderFunctions`) and the events
    resource operations (`create`, `getEvent`, `filterEvents`, `getAll`,
    `update`, `delete`);
  * `src/config/index.ts` — the joi-based environment validation.

The knex query builder is modelled as a pure record of a table (a list of
rows), accumulated where-clauses, raw SQL clauses and offset/limit, with a
`resolve` function giving the rows a query evaluates to.  Raw SQL clause
semantics is external (PostgreSQL text search), so `resolve` is
parameterized by an evaluation function for raw clauses.
-/

/-- Row of the `events` table without the generated id (interface
`EventBody` in `events.types.ts`). -/
structure EventBody where
  tittle : String
  slug : String
  description : String
  location : String
  date : String
  time : String
  rsvpEndDate : String
  createdBy : String
deriving DecidableEq

/-- Full row of the `events` table (interface `RawEventBody extends
EventBody` with the generated `id`). -/
structure RawEventBody extends EventBody where
  id : String
deriving DecidableEq

/-- Enum `EventLookUpKey` (`ID = 'id'`, `SLUG = 'slug'`). -/
inductive EventLookUpKey where
  | ID
  | SLUG
deriving DecidableEq

/-- The string value of an `EventLookUpKey` member. -/
def EventLookUpKey.toColumn : EventLookUpKey → String
  | .ID => "id"
  | .SLUG => "slug"

/-- Interface `UpdateEventBody`: every event column optional. -/
structure UpdateEventBody where
  tittle : Option String := none
  slug : Option String := none
  description : Option String := none
  location : Option String := none
  date : Option String := none
  time : Option String := none
  rsvpEndDate : Option String := none
  createdBy : Option String := none
deriving DecidableEq

/-- Interface `EventsFilter`: optional equality fields, range-comparison
variants (declared but never read by the composer) and the free-text
field `q` read by the composer.  The interface snapshot spells the title
filter field `tittle` while the composer reads `filterBody.title`; a
single field `title` models both spellings of the same filter. -/
structure EventsFilter where
  title : Option String := none
  description : Option String := none
  location : Option String := none
  date : Option String := none
  time : Option String := none
  rsvpEndDate : Option String := none
  createdBy : Option String := none
  dateGreaterThan : Option String := none
  dateGreaterThanEqualTo : Option String := none
  dateLessThan : Option String := none
  dateLessThanEqualTo : Option String := none
  rsvpEndDateGreaterThan : Option String := none
  rsvpEndDateGreaterThanEqualTo : Option String := none
  rsvpEndDateLessThan : Option String := none
  rsvpEndDateLessThanEqualTo : Option String := none
  q : Option String := none
deriving DecidableEq

/-- Enum `EventsFilterFields` (`TITTLE = 'tittle'`, `DESCRIPTION =
'description'`, `LOCATION = 'location'`); the implementation refers to
the title member as `EventsFilterFields.TITLE`. -/
inductive EventsFilterFields where
  | TITTLE
  | DESCRIPTION
  | LOCATION
deriving DecidableEq

/-- The column-name string value of an `EventsFilterFields` member. -/
def EventsFilterFields.toColumn : EventsFilterFields → String
  | .TITTLE => "tittle"
  | .DESCRIPTION => "description"
  | .LOCATION => "location"

/-- JavaScript truthiness of an optional string field (`if
(filterBody.location)`): present and non-empty. -/
def jsTruthyStr : Option String → Bool
  | none => false
  | some s => s != ""

/-- JavaScript template-literal rendering of a possibly-undefined string
(`undefined` renders as the text "undefined"). -/
def jsTemplate : Option String → String
  | none => "undefined"
  | some s => s

/-- The single-quote character, written via its code point 39. -/
def singleQuote : String := String.singleton (Char.ofNat 39)

/-- A knex query over the `events` table: the table contents, the
accumulated `.where(column, value)` clauses (the value is optional
because call sites may pass an undefined binding), the accumulated
`.whereRaw(sql)` clauses with their bound parameters, and optional
offset/limit. -/
structure QueryBuilder where
  table : List RawEventBody
  whereClauses : List (String × Option String)
  rawClauses : List (String × List String)
  offsetN : Option Nat
  limitN : Option Nat
deriving DecidableEq

/-- `knexInstance(EVENTS_TABLE)`: the base query over the events table. -/
def knexInstance (table : List RawEventBody) : QueryBuilder :=
  { table := table, whereClauses := [], rawClauses := [], offsetN := none, limitN := none }

/-- knex `.where(column, value)` (named `whereCol` because `where` is a
Lean keyword). -/
def QueryBuilder.whereCol (q : QueryBuilder) (column : String) (value : Option String) : QueryBuilder :=
  { q with whereClauses := q.whereClauses ++ [(column, value)] }

/-- knex `.whereRaw(sql)` with no bound parameters (the source passes
no bindings array). -/
def QueryBuilder.whereRaw (q : QueryBuilder) (sql : String) : QueryBuilder :=
  { q with rawClauses := q.rawClauses ++ [(sql, [])] }

/-- knex `.offset(n)`. -/
def QueryBuilder.offset (q : QueryBuilder) (n : Nat) : QueryBuilder :=
  { q with offsetN := some n }

/-- knex `.limit(n)`. -/
def QueryBuilder.limit (q : QueryBuilder) (n : Nat) : QueryBuilder :=
  { q with limitN := some n }

/-- knex `.select('*')`: selects every column, leaving the query rows
unchanged. -/
def QueryBuilder.selectStar (q : QueryBuilder) : QueryBuilder := q

/-- The value of a named column of an events row (`none` for a column
the table does not have). -/
def columnValue (column : String) (r : RawEventBody) : Option String :=
  match column with
  | "id" => some r.id
  | "tittle" => some r.tittle
  | "slug" => some r.slug
  | "description" => some r.description
  | "location" => some r.location
  | "date" => some r.date
  | "time" => some r.time
  | "rsvpEndDate" => some r.rsvpEndDate
  | "createdBy" => some r.createdBy
  | _ => none

/-- Whether a row satisfies one where-clause.  A clause whose value is
an undefined binding matches no row (knex rejects such a query; the
model keeps evaluation total by letting the clause exclude every row). -/
def matchesWhere (r : RawEventBody) (c : String × Option String) : Bool :=
  match c.2 with
  | some v => columnValue c.1 r == some v
  | none => false

/-- The rows a query resolves to: where-clauses and raw clauses are ANDed
per row, then offset and limit are applied.  `evalRaw sql bindings row`
is the external semantics of a raw SQL clause. -/
def resolve (evalRaw : String → List String → RawEventBody → Bool) (q : QueryBuilder) : List RawEventBody :=
  let rows := q.table.filter
    (fun r => q.whereClauses.all (fun c => matchesWhere r c) &&
              q.rawClauses.all (fun c => evalRaw c.1 c.2 r))
  let rows :=
    match q.offsetN with
    | some o => rows.drop o
    | none => rows
  match q.limitN with
  | some l => rows.take l
  | none => rows

/-- Type alias `QueryBuilderFunction`. -/
abbrev QueryBuilderFunction := QueryBuilder → QueryBuilder

/-- JavaScript truthiness of a query-builder object: an object is always
truthy.  (`getEvent` tests `if (!event)` on the un-awaited builder.) -/
def jsTruthy (_ : QueryBuilder) : Bool := true

/-- Class `EventNotFountError` (sic) from `events.errors.ts`.  Modelled
from the spec: the class itself is not among the provided sources;
"NotFound: ... carries an optional HTTP-intent status code". -/
structure EventNotFountError where
  message : String
  status : Option Nat := none
deriving DecidableEq

/-- `documentVector(queryString)`: builds the free-text search transform
`query.whereRaw(` followed by the template literal interpolating the raw
query string into `document @@ to_tsquery('...')` with no bound
parameters.  The parameter is optional because call sites pass a
possibly-undefined field. -/
def documentVector (queryString : Option String) : QueryBuilderFunction :=
  fun query =>
    query.whereRaw ("document @@ to_tsquery(" ++ singleQuote ++ jsTemplate queryString ++ singleQuote ++ ")")

/-- `filterbyField(field, value)`: equality predicate on an enum-named
column. -/
def filterbyField (field : EventsFilterFields) (value : Option String) : QueryBuilderFunction :=
  fun query => query.whereCol field.toColumn value

/-- `filterByDateEqualTo(dateField, date)`: equality predicate on a date
column named by a raw string. -/
def filterByDateEqualTo (dateField : String) (date : Option String) : QueryBuilderFunction :=
  fun query => query.whereCol dateField date

/-- `getQueryBuilderFunctions(filterBody)`: conditionally pushes one
transform per truthy filter field, in source order.  Note the
`rsvpEndDate` branch passes `filterBody.date` (as in the source), and
the title branch uses the member the implementation calls
`EventsFilterFields.TITLE`. -/
def getQueryBuilderFunctions (filterBody : EventsFilter) : List QueryBuilderFunction :=
  let filterQueryFunctions : List QueryBuilderFunction := []
  let filterQueryFunctions :=
    if jsTruthyStr filterBody.location then
      filterQueryFunctions ++ [filterbyField .LOCATION filterBody.location]
    else filterQueryFunctions
  let filterQueryFunctions :=
    if jsTruthyStr filterBody.title then
      filterQueryFunctions ++ [filterbyField .TITTLE filterBody.title]
    else filterQueryFunctions
  let filterQueryFunctions :=
    if jsTruthyStr filterBody.date then
      filterQueryFunctions ++ [filterByDateEqualTo "date" filterBody.date]
    else filterQueryFunctions
  let filterQueryFunctions :=
    if jsTruthyStr filterBody.rsvpEndDate then
      filterQueryFunctions ++ [filterByDateEqualTo "rsvpEndDate" filterBody.date]
    else filterQueryFunctions
  let filterQueryFunctions :=
    if jsTruthyStr filterBody.q then
      filterQueryFunctions ++ [documentVector filterBody.q]
    else filterQueryFunctions
  filterQueryFunctions

/-- Modelled from the spec: `pipe` from `src/lib/util/functionalUtils`
is not among the provided sources.  "Output: a single function that,
given a base query, returns the query with all listed transforms applied
in order (left-to-right fold; each transform receives the query produced
by the previous one)"; "an empty Filter Criteria yields a no-op
transform (identity)". -/
def pipe (fs : List QueryBuilderFunction) : QueryBuilderFunction :=
  fun q => List.foldl (fun acc f => f acc) q fs

/-- SQL `UPDATE` row semantics of knex `.update(updateBody)` for one row:
each column present in the update body is set, every other column keeps
its prior value; the id is not part of `UpdateEventBody`. -/
def applyUpdate (u : UpdateEventBody) (r : RawEventBody) : RawEventBody :=
  { tittle := u.tittle.getD r.tittle
    slug := u.slug.getD r.slug
    description := u.description.getD r.description
    location := u.location.getD r.location
    date := u.date.getD r.date
    time := u.time.getD r.time
    rsvpEndDate := u.rsvpEndDate.getD r.rsvpEndDate
    createdBy := u.createdBy.getD r.createdBy
    id := r.id }

namespace EventsResource

/-- `create(eventBody)`: inserts a row (the storage-generated id is the
`genId` argument) and returns the inserted row (`created[0]` of
`.insert(eventBody, '*')`), alongside the new table state. -/
def create (db : List RawEventBody) (eventBody : EventBody) (genId : String) :
    List RawEventBody × RawEventBody :=
  let row : RawEventBody := { eventBody with id := genId }
  (db ++ [row], row)

/-- `getEvent(lookupKey, value)`: builds the `.where(lookupKey,
value).first()` query WITHOUT awaiting it, tests `if (!event)` on the
builder object (always truthy in JavaScript, so the NotFound branch is
dead), and returns the query, whose awaited value is the first matching
row or `undefined`. -/
def getEvent (db : List RawEventBody) (lookupKey : EventLookUpKey) (value : String) :
    Except EventNotFountError (Option RawEventBody) :=
  let event := (knexInstance db).whereCol lookupKey.toColumn (some value)
  if jsTruthy event = false then
    Except.error
      { message := "no event with " ++ lookupKey.toColumn ++ " " ++ value ++ " found" }
  else
    Except.ok (resolve (fun _ _ _ => true) event).head?

/-- `filterEvents(filterBody)`: applies the piped query-builder
functions to the base events query and awaits the result; the operation
itself never raises. -/
def filterEvents (evalRaw : String → List String → RawEventBody → Bool)
    (db : List RawEventBody) (filterBody : EventsFilter) :
    Except EventNotFountError (List RawEventBody) :=
  let baseQuey := knexInstance db
  let queryBuilderFunctions := getQueryBuilderFunctions filterBody
  let queryBuilder := pipe queryBuilderFunctions
  let query := queryBuilder baseQuey
  Except.ok (resolve evalRaw query)

/-- `getAll(offset, limit)`: pages through the events table, raising
`EventNotFountError` with HTTP status 404 when the page is empty. -/
def getAll (db : List RawEventBody) (offset : Nat) (limit : Nat) :
    Except EventNotFountError (List RawEventBody) :=
  let events := resolve (fun _ _ _ => true)
    (((knexInstance db).selectStar.offset offset).limit limit)
  if events.length = 0 then
    Except.error { message := "no events found that match your query", status := some 404 }
  else
    Except.ok events

/-- `update(updateBody, eventId)`: updates every row matching the id and
returns `updatedEvent[0]` of `.returning('*')` (the first updated row,
absent when no row matched), alongside the new table state. -/
def update (db : List RawEventBody) (updateBody : UpdateEventBody) (eventId : String) :
    List RawEventBody × Option RawEventBody :=
  let updated := db.map (fun r => if r.id == eventId then applyUpdate updateBody r else r)
  (updated, (updated.filter (fun r => r.id == eventId)).head?)

/-- `delete(eventId)`: removes every row matching the id; no result and
no error when nothing matched. -/
def delete (db : List RawEventBody) (eventId : String) : List RawEventBody :=
  db.filter (fun r => !(r.id == eventId))

end EventsResource

/-! Configuration loader (`src/config/index.ts`): the joi schema
`envVarsSchema` applied to the process environment, and the exported
`config` object.  joi v15 semantics as used by the schema:
  * `.string().required()` rejects a missing variable and rejects the
    empty string;
  * `.string().allow(list)` whitelists the listed values IN ADDITION to
    any other permitted value — unlike `.valid`, it does not restrict
    the permitted values to the list;
  * `.string().default(d)` substitutes `d` when the variable is absent;
  * `.number().default(d)` coerces a present value to a number (failing
    validation when coercion fails) and substitutes `d` when absent. -/

/-- The process environment restricted to the variables the schema
names (`unknown()` lets every other variable pass through unchecked). -/
structure ProcessEnv where
  NODE_ENV : Option String := none
  PORT : Option String := none
  DATABASE : Option String := none
  TEST_DB : Option String := none
  DATABASE_DIALECT : Option String := none
  DATABASE_PASSWORD : Option String := none
  DATABASE_USER : Option String := none
  DATABASE_URL : Option String := none
  HOST : Option String := none
deriving DecidableEq

/-- The exported `config` object. -/
structure Config where
  env : String
  port : Nat
  dbName : String
  testDbName : String
  dbUsername : String
  dbDialect : String
  dbPassword : Option String
  databaseUrl : Option String
  host : String
deriving DecidableEq

/-- The values listed in `NODE_ENV`'s `.allow([...])`. -/
def allowedNodeEnvs : List String := ["development", "production", "test", "staging"]

/-- `joi.string().allow(allowed).required()`: missing fails; a value in
the allow-list passes outright; the empty string fails; any other string
passes (allow does not restrict). -/
def joiRequiredString (name : String) (v : Option String) (allowed : List String) :
    Except String String :=
  match v with
  | none => Except.error ("Config validation error: " ++ name ++ " is required")
  | some s =>
    if s ∈ allowed then Except.ok s
    else if s = "" then
      Except.error ("Config validation error: " ++ name ++ " is not allowed to be empty")
    else Except.ok s

/-- `joi.string().default(dflt)`: absent yields the default; the empty
string fails; any other string passes. -/
def joiDefaultString (name : String) (v : Option String) (dflt : String) :
    Except String String :=
  match v with
  | none => Except.ok dflt
  | some s =>
    if s = "" then
      Except.error ("Config validation error: " ++ name ++ " is not allowed to be empty")
    else Except.ok s

/-- `joi.string().default(null)`: absent yields `null`; the empty string
fails; any other string passes. -/
def joiNullString (name : String) (v : Option String) :
    Except String (Option String) :=
  match v with
  | none => Except.ok none
  | some s =>
    if s = "" then
      Except.error ("Config validation error: " ++ name ++ " is not allowed to be empty")
    else Except.ok (some s)

/-- `joi.number().default(dflt)`: absent yields the default; a present
value is coerced to a number, failing validation when coercion fails. -/
def joiNumberDefault (name : String) (v : Option String) (dflt : Nat) :
    Except String Nat :=
  match v with
  | none => Except.ok dflt
  | some s =>
    match s.toNat? with
    | some n => Except.ok n
    | none => Except.error ("Config validation error: " ++ name ++ " must be a number")

/-- JavaScript `x || dflt` on a validated string. -/
def jsOrDefault (s : String) (dflt : String) : String :=
  if s == "" then dflt else s

/-- Validation of the whole environment against `envVarsSchema` (keys in
schema order, abort on the first error) followed by construction of the
exported `config` object, with `env := envVars.NODE_ENV || 'development'`.
A validation error models the thrown
`Error('Config validation error: ...')`, which aborts startup. -/
def loadConfig (e : ProcessEnv) : Except String Config := do
  let nodeEnv ← joiRequiredString "NODE_ENV" e.NODE_ENV allowedNodeEnvs
  let port ← joiNumberDefault "PORT" e.PORT 8080
  let database ← joiRequiredString "DATABASE" e.DATABASE []
  let testDb ← joiDefaultString "TEST_DB" e.TEST_DB "events_test_db"
  let dialect ← joiDefaultString "DATABASE_DIALECT" e.DATABASE_DIALECT "postgres"
  let password ← joiNullString "DATABASE_PASSWORD" e.DATABASE_PASSWORD
  let user ← joiRequiredString "DATABASE_USER" e.DATABASE_USER []
  let databaseUrl ← joiNullString "DATABASE_URL" e.DATABASE_URL
  let host ← joiRequiredString "HOST" e.HOST []
  Except.ok
    { env := jsOrDefault nodeEnv "development"
      port := port
      dbName := database
      testDbName := testDb
      dbUsername := user
      dbDialect := dialect
      dbPassword := password
      databaseUrl := databaseUrl
      host := host }

/-! Concrete fixtures used by closed theorems and witnesses. -/

/-- A sample persisted event row. -/
def sampleEvent : RawEventBody :=
  { tittle := "Tech Meetup"
    slug := "tech-meetup"
    description := "A monthly meetup"
    location := "Nairobi"
    date := "2020-01-10"
    time := "18:00"
    rsvpEndDate := "2020-01-05"
    createdBy := "acct-1"
    id := "1" }

/-- A sample event body without id. -/
def sampleBody : EventBody :=
  { tittle := "Hackathon"
    slug := "hackathon"
    description := "A weekend hackathon"
    location := "Kisumu"
    date := "2020-02-01"
    time := "09:00"
    rsvpEndDate := "2020-01-25"
    createdBy := "acct-2" }

/-- The entirely empty filter criteria. -/
def emptyFilter : EventsFilter := {}

/-- A filter with only the rsvp-end-date field set. -/
def rsvpOnlyFilter : EventsFilter := { rsvpEndDate := some "2020-01-05" }

/-- C1: the claim states that a criteria with exactly the rsvp-end-date
field set returns exactly the rows whose `rsvpEndDate` column equals the
given value.  The code instead compares the column against the absent
`date` field, so the uniquely matching row is not returned: at a table
holding only `sampleEvent`, whose `rsvpEndDate` equals the filtered
value, `filterEvents` returns the empty list. -/
theorem filterEvents_rsvpEndDate_only_misses_matching_row :
    sampleEvent.rsvpEndDate = "2020-01-05" ∧
    EventsResource.filterEvents (fun _ _ _ => true) [sampleEvent] rsvpOnlyFilter =
      Except.ok [] := by
  constructor
  · rfl
  · rfl

/-- C2: the claim states that `getEvent` fails with NotFound when no row
matches, in particular after a delete.  The code tests `if (!event)` on
the un-awaited (always-truthy) query object, so the NotFound branch is
dead: deleting the only row with id "1" and then looking it up resolves
to `undefined` with no error raised. -/
theorem getEvent_after_delete_resolves_without_error :
    EventsResource.getEvent (EventsResource.delete [sampleEvent] "1") .ID "1" =
      Except.ok none := by
  rfl

/-- A free-text query string carrying a quote-escape injection. -/
def injectionString : String := singleQuote ++ "); DROP TABLE events; --"

/-- C3: the claim states the free-text search string is passed as a
bound parameter and never interpolated into the query text.  The code
interpolates it: the raw clause built by `documentVector` for the
injection string embeds that string verbatim in the SQL text and carries
an empty bindings list. -/
theorem documentVector_interpolates_raw_string :
    (documentVector (some injectionString) (knexInstance [])).rawClauses =
      [("document @@ to_tsquery(" ++ singleQuote ++ injectionString ++ singleQuote ++ ")",
        [])] := by
  rfl

/-- An environment whose NODE_ENV is outside the enumerated list while
every other required variable is present and the defaulted variables are
absent. -/
def malformedNodeEnv : ProcessEnv :=
  { NODE_ENV := some "qa"
    DATABASE := some "events_db"
    DATABASE_USER := some "admin"
    HOST := some "localhost" }

/-- C10: the claim states that a malformed NODE_ENV (a value outside
development/production/test/staging) makes configuration loading fail
fatally.  The schema uses `.allow`, which whitelists the listed values
without restricting others, so validation succeeds on NODE_ENV = "qa"
and produces a config (with the defaults PORT=8080, TEST_DB and
DATABASE_DIALECT applied). -/
theorem loadConfig_accepts_unenumerated_node_env :
    "qa" ∉ allowedNodeEnvs ∧
    loadConfig malformedNodeEnv =
      Except.ok
        { env := "qa"
          port := 8080
          dbName := "events_db"
          testDbName := "events_test_db"
          dbUsername := "admin"
          dbDialect := "postgres"
          dbPassword := none
          databaseUrl := none
          host := "localhost" } := by
  constructor
  · decide
  · rfl

/-- Spec-side restatement of the composer output: the transforms of the
present and non-empty recognized fields, concatenated in the fixed order
location, title, date, rsvp-end-date, free-text. -/
def orderedTransforms (f : EventsFilter) : List QueryBuilderFunction :=
  (if jsTruthyStr f.location then [filterbyField .LOCATION f.location] else []) ++
  (if jsTruthyStr f.title then [filterbyField .TITTLE f.title] else []) ++
  (if jsTruthyStr f.date then [filterByDateEqualTo "date" f.date] else []) ++
  (if jsTruthyStr f.rsvpEndDate then [filterByDateEqualTo "rsvpEndDate" f.date] else []) ++
  (if jsTruthyStr f.q then [documentVector f.q] else [])

/-- C4: the composer appends one transform per recognized present and
non-empty field, in the fixed order location, title, date,
rsvp-end-date, free-text (a property of the record, independent of any
field presence order), and the composed function applies the listed
transforms to the base query as a left-to-right fold. -/
theorem getQueryBuilderFunctions_ordered_fold (f : EventsFilter) (q : QueryBuilder) :
    getQueryBuilderFunctions f = orderedTransforms f ∧
    pipe (getQueryBuilderFunctions f) q =
      List.foldl (fun acc g => g acc) q (orderedTransforms f) := by
  have h : getQueryBuilderFunctions f = orderedTransforms f := by
    unfold getQueryBuilderFunctions orderedTransforms
    cases h1 : jsTruthyStr f.location <;> cases h2 : jsTruthyStr f.title <;>
      cases h3 : jsTruthyStr f.date <;> cases h4 : jsTruthyStr f.rsvpEndDate <;>
      cases h5 : jsTruthyStr f.q <;> simp [h1, h2, h3, h4, h5]
  exact ⟨h, by rw [h]; rfl⟩

/-- C5: an entirely empty filter criteria composes to the identity query
transform, and `filterEvents` on it returns the full unfiltered event
set without error. -/
theorem filterEvents_empty_criteria_identity
    (evalRaw : String → List String → RawEventBody → Bool)
    (db : List RawEventBody) (q : QueryBuilder) :
    pipe (getQueryBuilderFunctions emptyFilter) q = q ∧
    EventsResource.filterEvents evalRaw db emptyFilter = Except.ok db := by
  constructor
  · rfl
  · show Except.ok (resolve evalRaw (knexInstance db)) = Except.ok db
    simp [resolve, knexInstance, List.filter_true]

/-- C6: `getAll` skips `offset` rows and returns at most `limit` rows,
failing with the 404 NotFound error exactly when the resulting page is
empty (in particular whenever `offset` is at least the row count, since
the page is then empty), whereas `filterEvents` always returns a
(possibly empty) row list and never an error. -/
theorem getAll_page_semantics (db : List RawEventBody) (o l : Nat) :
    EventsResource.getAll db o l =
      (if ((db.drop o).take l).length = 0 then
        Except.error { message := "no events found that match your query", status := some 404 }
      else Except.ok ((db.drop o).take l)) ∧
    ((db.drop o).take l).length ≤ l ∧
    (∀ evalRaw f, ∃ rows, EventsResource.filterEvents evalRaw db f = Except.ok rows) := by
  refine ⟨?_, ?_, ?_⟩
  · simp [EventsResource.getAll, resolve, knexInstance, QueryBuilder.selectStar,
      QueryBuilder.offset, QueryBuilder.limit, List.filter_true]
  · simp [List.length_take_le]
  · intro evalRaw f
    exact ⟨_, rfl⟩

/-- The where-clauses of the composed filter query: the base query's
clauses followed by one equality clause per truthy equality field, in
composer order (the free-text transform only adds a raw clause). -/
theorem composed_whereClauses (f : EventsFilter) (q : QueryBuilder) :
    (pipe (getQueryBuilderFunctions f) q).whereClauses =
      q.whereClauses ++
      (if jsTruthyStr f.location then [("location", f.location)] else []) ++
      (if jsTruthyStr f.title then [("tittle", f.title)] else []) ++
      (if jsTruthyStr f.date then [("date", f.date)] else []) ++
      (if jsTruthyStr f.rsvpEndDate then [("rsvpEndDate", f.date)] else []) := by
  unfold pipe getQueryBuilderFunctions
  cases h1 : jsTruthyStr f.location <;> cases h2 : jsTruthyStr f.title <;>
    cases h3 : jsTruthyStr f.date <;> cases h4 : jsTruthyStr f.rsvpEndDate <;>
    cases h5 : jsTruthyStr f.q <;>
    simp [h1, h2, h3, h4, h5, filterbyField, filterByDateEqualTo, documentVector,
      QueryBuilder.whereCol, QueryBuilder.whereRaw, EventsFilterFields.toColumn]

/-- C9: whenever the rsvp-end-date filter field is truthy, the composed
query constrains the `rsvpEndDate` column to equal the filter's `date`
field value — every `rsvpEndDate` clause carries exactly that value —
and in particular, when `date` is absent, the `rsvpEndDate` column is
compared against an undefined value. -/
theorem rsvpEndDate_filter_uses_date_value (f : EventsFilter) (db : List RawEventBody)
    (h : jsTruthyStr f.rsvpEndDate = true) :
    ("rsvpEndDate", f.date) ∈
      (pipe (getQueryBuilderFunctions f) (knexInstance db)).whereClauses ∧
    (∀ v, ("rsvpEndDate", v) ∈
        (pipe (getQueryBuilderFunctions f) (knexInstance db)).whereClauses → v = f.date) ∧
    (f.date = none →
      ("rsvpEndDate", (none : Option String)) ∈
        (pipe (getQueryBuilderFunctions f) (knexInstance db)).whereClauses) := by
  have hc := composed_whereClauses f (knexInstance db)
  refine ⟨?_, ?_, ?_⟩
  · rw [hc]
    simp [knexInstance, h]
  · intro v hv
    rw [hc] at hv
    cases h1 : jsTruthyStr f.location <;> cases h2 : jsTruthyStr f.title <;>
      cases h3 : jsTruthyStr f.date <;>
      simp [knexInstance, h, h1, h2, h3] at hv <;> tauto
  · intro hd
    rw [hc]
    simp [knexInstance, h, hd]

/-- C9 witness: at a filter whose only field is an rsvp-end-date value,
the composed query holds a clause comparing the `rsvpEndDate` column
against the undefined `date` value. -/
theorem rsvpEndDate_filter_uses_date_value_witness :
    jsTruthyStr rsvpOnlyFilter.rsvpEndDate = true ∧
    ("rsvpEndDate", (none : Option String)) ∈
      (pipe (getQueryBuilderFunctions rsvpOnlyFilter) (knexInstance [])).whereClauses :=
  ⟨rfl, (rsvpEndDate_filter_uses_date_value rsvpOnlyFilter [] rfl).2.2 rfl⟩

/-- A lookup by id resolves to the rows whose `id` column equals the
looked-up value. -/
theorem resolve_id_filter (db : List RawEventBody) (eventId : String) :
    resolve (fun _ _ _ => true) ((knexInstance db).whereCol "id" (some eventId)) =
      db.filter (fun e => e.id == eventId) := by
  unfold resolve knexInstance QueryBuilder.whereCol
  simp [matchesWhere, columnValue]

/-- `getEvent` by id resolves (without error) to the first row whose
`id` column equals the looked-up value. -/
theorem getEvent_ID_resolves (db : List RawEventBody) (eventId : String) :
    EventsResource.getEvent db .ID eventId =
      Except.ok ((db.filter (fun e => e.id == eventId)).head?) := by
  show Except.ok ((resolve (fun _ _ _ => true)
      ((knexInstance db).whereCol "id" (some eventId))).head?) = _
  rw [resolve_id_filter]

/-- `applyUpdate` never changes the row id. -/
theorem applyUpdate_id (u : UpdateEventBody) (r : RawEventBody) :
    (applyUpdate u r).id = r.id := rfl

/-- After mapping the per-row update over the table, the first row
matching the id is the updated image of the first matching row. -/
theorem updated_filter_head (db : List RawEventBody) (u : UpdateEventBody)
    (eventId : String) (r : RawEventBody)
    (h : db.find? (fun e => e.id == eventId) = some r) :
    ((db.map (fun e => if e.id == eventId then applyUpdate u e else e)).filter
        (fun e => e.id == eventId)).head? = some (applyUpdate u r) := by
  induction db with
  | nil => simp at h
  | cons a t ih =>
    by_cases ha : (a.id == eventId) = true
    · have h2 : a = r := by simpa [List.find?_cons, ha] using h
      subst h2
      have ha2 : a.id = eventId := by simpa using ha
      simp [List.filter_cons, applyUpdate, ha2]
    · have h2 : t.find? (fun e => e.id == eventId) = some r := by
        simpa [List.find?_cons, ha] using h
      simp only [List.map_cons, ha, if_false, List.filter_cons]
      rw [if_neg (by simp [ha])]
      exact ih h2

/-- C7: updating an existing row changes exactly the fields present in
the update body: the operation returns the merged record, a subsequent
`getEvent(ID, id)` observes that same record, the id is preserved, and
every field absent from the update body retains its prior value. -/
theorem update_frame (db : List RawEventBody) (u : UpdateEventBody)
    (eventId : String) (r : RawEventBody)
    (hfind : db.find? (fun e => e.id == eventId) = some r) :
    (EventsResource.update db u eventId).2 = some (applyUpdate u r) ∧
    EventsResource.getEvent (EventsResource.update db u eventId).1 .ID eventId =
      Except.ok (some (applyUpdate u r)) ∧
    (applyUpdate u r).id = r.id ∧
    (u.tittle = none → (applyUpdate u r).tittle = r.tittle) ∧
    (u.slug = none → (applyUpdate u r).slug = r.slug) ∧
    (u.description = none → (applyUpdate u r).description = r.description) ∧
    (u.location = none → (applyUpdate u r).location = r.location) ∧
    (u.date = none → (applyUpdate u r).date = r.date) ∧
    (u.time = none → (applyUpdate u r).time = r.time) ∧
    (u.rsvpEndDate = none → (applyUpdate u r).rsvpEndDate = r.rsvpEndDate) ∧
    (u.createdBy = none → (applyUpdate u r).createdBy = r.createdBy) := by
  have key := updated_filter_head db u eventId r hfind
  refine ⟨key, ?_, rfl, ?_, ?_, ?_, ?_, ?_, ?_, ?_, ?_⟩
  · rw [getEvent_ID_resolves]
    exact congrArg Except.ok key
  all_goals intro hn
  all_goals simp [applyUpdate, hn]

/-- Update body used by the C7 witness: only the location is present. -/
def sampleUpdate : UpdateEventBody := { location := some "Mombasa" }

/-- C7 witness: a concrete update of the sample row, observed through
`getEvent`. -/
theorem update_frame_witness :
    ([sampleEvent].find? (fun e => e.id == "1") = some sampleEvent) ∧
    EventsResource.getEvent (EventsResource.update [sampleEvent] sampleUpdate "1").1 .ID "1" =
      Except.ok (some (applyUpdate sampleUpdate sampleEvent)) :=
  ⟨rfl, (update_frame [sampleEvent] sampleUpdate "1" sampleEvent rfl).2.1⟩

/-- C8: `create` returns the persisted record carrying the
storage-generated id, and as long as that generated id is fresh (the
storage invariant), a subsequent `getEvent(ID, id)` returns a record
equal to the created one. -/
theorem create_then_getEvent (db : List RawEventBody) (body : EventBody) (genId : String)
    (hfresh : db.find? (fun e => e.id == genId) = none) :
    (EventsResource.create db body genId).2 = { body with id := genId } ∧
    EventsResource.getEvent (EventsResource.create db body genId).1 .ID genId =
      Except.ok (some (EventsResource.create db body genId).2) := by
  constructor
  · rfl
  · rw [getEvent_ID_resolves]
    have hnil : db.filter (fun e => e.id == genId) = [] := by
      rw [List.filter_eq_nil_iff]
      intro a ha
      exact List.find?_eq_none.mp hfresh a ha
    show Except.ok (((db ++ [({ body with id := genId } : RawEventBody)]).filter
        (fun e => e.id == genId)).head?) = _
    simp [List.filter_append, hnil]
    rfl

/-- C8 witness: creating a row in an empty table and reading it back by
the returned id. -/
theorem create_then_getEvent_witness :
    (([] : List RawEventBody).find? (fun e => e.id == "42") = none) ∧
    EventsResource.getEvent (EventsResource.create [] sampleBody "42").1 .ID "42" =
      Except.ok (some (EventsResource.create [] sampleBody "42").2) :=
  ⟨rfl, (create_then_getEvent [] sampleBody "42" rfl).2⟩
